import Mathlib

/-!
Verification of the browser-side calendar / task-selector scripts of the
`tareas-federal` repository.

The heart of the repository is `CalendarWidget` in `static/task_selector.js`
(the variant with date-range filter support): its `render` method computes a
month grid of day cells, `prevMonth` / `nextMonth` navigate via the JavaScript
`Date.setMonth` API, `selectDate` records a selection, and `isInFilterRange`
implements the filter-window test.  The widget leans on the built-in
JavaScript `Date` object, whose behaviour is fixed by ECMA-262 (proleptic
Gregorian day arithmetic, `MakeDay`, `WeekDay`, and the year / month / date
accessors).  This file embeds both the ECMA-262 date arithmetic and the
widget logic as executable Lean definitions and proves the specified
properties about them.  Also embedded: the `searchTasks` minimum-query gate
from `task_selector.js` and the due-soon urgency classification from
`notifications.js`.
-/

namespace TareasFederal

/-! ### ECMA-262 Date arithmetic

JavaScript `Date` semantics per ECMA-262: days are counted from the epoch
1970-01-01 (day number 0); `MakeDay(year, month, date)` first normalises the
0-based `month` into the year, then adds `date - 1` days to the first of that
month; `WeekDay(t) = (Day(t) + 4) modulo 7` with a non-negative result
(1970-01-01 was a Thursday, `getDay` returns 0 for Sunday); a year is a leap
year when it is divisible by 4 and not by 100, or divisible by 400.
Lean's `/` and `%` on `Int` are Euclidean; for the positive divisors used
here they agree with the floor operations of ECMA-262. -/

/-- ECMA-262 `DaysInYear` test: 366 days exactly when the year is divisible
by 4 and (not by 100, or by 400). -/
def isLeapYear (y : Int) : Bool :=
  y % 4 == 0 && (y % 100 != 0 || y % 400 == 0)

/-- ECMA-262 `DayFromYear(y)`: the day number of 1 January of year `y`. -/
def dayFromYear (y : Int) : Int :=
  365 * (y - 1970) + (y - 1969) / 4 - (y - 1901) / 100 + (y - 1601) / 400

/-- Cumulative day count before each 0-based month in a non-leap year
(the month boundaries used by ECMA-262 `DayWithinYear` / `MonthFromTime`). -/
def cumDaysBeforeMonth : Nat → Int
  | 0 => 0 | 1 => 31 | 2 => 59 | 3 => 90 | 4 => 120 | 5 => 151
  | 6 => 181 | 7 => 212 | 8 => 243 | 9 => 273 | 10 => 304 | _ => 334

/-- Day-within-year of the first day of 0-based month `m` in year `y`. -/
def monthStartDayWithinYear (y : Int) (m : Nat) : Int :=
  cumDaysBeforeMonth m + (if 2 ≤ m ∧ isLeapYear y = true then 1 else 0)

/-- ECMA-262 `MakeDay(y, m, d)` with 0-based month `m` (any integer,
normalised into the year) and arbitrary integer day `d` (day 0 is the last
day of the previous month): the resulting day number since the epoch. -/
def makeDay (y m d : Int) : Int :=
  let ym := y + m / 12
  let mn := (m % 12).toNat
  dayFromYear ym + monthStartDayWithinYear ym mn + (d - 1)

/-- ECMA-262 `WeekDay`: 0 = Sunday … 6 = Saturday (what `getDay` returns). -/
def weekDay (z : Int) : Int := (z + 4) % 7

/-- A normalised JavaScript `Date` (date part only): what `getFullYear`,
`getMonth` (0-based) and `getDate` (1-based) report. -/
structure JsDate where
  year : Int
  month : Nat
  day : Nat
deriving DecidableEq, Repr

/-- Inverse of the day count: the proleptic-Gregorian civil date
`(year, 1-based month, day)` of day number `z`, computed with the standard
era-based algorithm.  This realises the ECMA-262 `YearFromTime` /
`MonthFromTime` / `DateFromTime` accessors. -/
def civilFromDays (z : Int) : Int × Nat × Nat :=
  let zs := z + 719468
  let era := zs / 146097
  let doe := zs % 146097
  let yoe := (doe - doe / 1460 + doe / 36524 - doe / 146096) / 365
  let doy := doe - (365 * yoe + yoe / 4 - yoe / 100)
  let mp := (5 * doy + 2) / 153
  let d := (doy - (153 * mp + 2) / 5 + 1).toNat
  let m1 := (if mp < 10 then mp + 3 else mp - 9).toNat
  (yoe + era * 400 + (if m1 ≤ 2 then 1 else 0), m1, d)

/-- The normalised `Date` holding day number `z` (month made 0-based). -/
def dateFromDay (z : Int) : JsDate :=
  let c := civilFromDays z
  ⟨c.1, c.2.1 - 1, c.2.2⟩

/-- `new Date(y, m, d)` for arbitrary integer month and day. -/
def mkDate (y m d : Int) : JsDate :=
  dateFromDay (makeDay y m d)

/-- `date.setMonth(m)`: re-derive the date from the current year and
day-of-month with the new (possibly out-of-range) month.  Day-of-month
overflow rolls into the following month, as in ECMA-262. -/
def JsDate.setMonth (dt : JsDate) (m : Int) : JsDate :=
  mkDate dt.year m (dt.day : Int)

/-- `date.getDay()` of the date with day number `z`. -/
def getDayOfDayNumber (z : Int) : Int := weekDay z

/-! ### Reference month lengths (from the specification wording)

The specification states the month lengths directly: 31/30 per the standard
pattern, and February 29 exactly in leap years per the rule "divisible by 4,
except centuries unless divisible by 400".  These definitions follow that
wording; the development proves that the `Date`-derived lengths used by the
widget coincide with them. -/

/-- Leap year per the specification wording: divisible by 4, except
centuries (divisible by 100) unless divisible by 400. -/
def specIsLeapYear (y : Int) : Prop :=
  4 ∣ y ∧ (¬ (100 ∣ y) ∨ 400 ∣ y)

instance (y : Int) : Decidable (specIsLeapYear y) := by
  unfold specIsLeapYear; infer_instance

/-- Number of days in 0-based month `m` of year `y` per the specification
wording: February (m = 1) has 29 days in leap years and 28 otherwise; April,
June, September, November (m = 3, 5, 8, 10) have 30; the rest have 31. -/
def specDaysInMonth (y : Int) (m : Nat) : Nat :=
  if m = 1 then (if specIsLeapYear y then 29 else 28)
  else if m = 3 ∨ m = 5 ∨ m = 8 ∨ m = 10 then 30 else 31

/-- Days in the month preceding 0-based month `m` of year `y`, rolling from
January back to December of the previous year. -/
def specPrevMonthDays (y : Int) (m : Nat) : Nat :=
  if m = 0 then specDaysInMonth (y - 1) 11 else specDaysInMonth y (m - 1)

/-! ### 400-year periodicity of the date arithmetic -/

theorem isLeapYear_add_400_mul (y k : Int) : isLeapYear (y + 400 * k) = isLeapYear y := by
  have h4 : (y + 400 * k) % 4 = y % 4 := by omega
  have h100 : (y + 400 * k) % 100 = y % 100 := by omega
  have h400 : (y + 400 * k) % 400 = y % 400 := by omega
  simp [isLeapYear, h4, h100, h400]

theorem dayFromYear_add_400_mul (y k : Int) :
    dayFromYear (y + 400 * k) = dayFromYear y + 146097 * k := by
  simp only [dayFromYear]; omega

theorem monthStartDayWithinYear_add_400_mul (y k : Int) (m : Nat) :
    monthStartDayWithinYear (y + 400 * k) m = monthStartDayWithinYear y m := by
  simp only [monthStartDayWithinYear, isLeapYear_add_400_mul]

theorem makeDay_add_400_mul (y k m d : Int) :
    makeDay (y + 400 * k) m d = makeDay y m d + 146097 * k := by
  simp only [makeDay]
  rw [show y + 400 * k + m / 12 = (y + m / 12) + 400 * k by ring,
      dayFromYear_add_400_mul, monthStartDayWithinYear_add_400_mul]
  ring

theorem civilFromDays_add_146097_mul (z k : Int) :
    civilFromDays (z + 146097 * k) =
      ((civilFromDays z).1 + 400 * k, (civilFromDays z).2.1, (civilFromDays z).2.2) := by
  simp only [civilFromDays]
  have hera : (z + 146097 * k + 719468) / 146097 = (z + 719468) / 146097 + k := by omega
  have hdoe : (z + 146097 * k + 719468) % 146097 = (z + 719468) % 146097 := by omega
  rw [hera, hdoe]
  refine Prod.ext ?_ rfl
  simp only
  ring

theorem dateFromDay_add_146097_mul (z k : Int) :
    dateFromDay (z + 146097 * k) =
      ⟨(dateFromDay z).year + 400 * k, (dateFromDay z).month, (dateFromDay z).day⟩ := by
  simp only [dateFromDay, civilFromDays_add_146097_mul]

theorem specDaysInMonth_add_400_mul (y k : Int) (m : Nat) :
    specDaysInMonth (y + 400 * k) m = specDaysInMonth y m := by
  have hleap : specIsLeapYear (y + 400 * k) ↔ specIsLeapYear y := by
    unfold specIsLeapYear; omega
  simp only [specDaysInMonth]
  by_cases h1 : m = 1
  · rw [if_pos h1, if_pos h1]
    by_cases h2 : specIsLeapYear y
    · rw [if_pos (hleap.mpr h2), if_pos h2]
    · rw [if_neg (fun hh => h2 (hleap.mp hh)), if_neg h2]
  · rw [if_neg h1, if_neg h1]

/-! ### Month lengths over one era, extended to all years -/

set_option maxRecDepth 100000 in
set_option maxHeartbeats 40000000 in
/-- Base case over one 400-year era: for every year `0 ≤ r < 400` and month
argument `0 ≤ m ≤ 12`, the `getDate` of `new Date(r, m, 0)` (last day of
month `m - 1`) is the reference length of the preceding month. -/
theorem dateOfDayZero_base : ∀ (r : Nat), r < 400 → ∀ (m : Nat), m < 13 →
    (dateFromDay (makeDay (r : Int) (m : Int) 0)).day = specPrevMonthDays (r : Int) m := by
  decide

/-- For every integer year `y` and month argument `m ≤ 12`, the `getDate` of
`new Date(y, m, 0)` equals the reference length of the month preceding
0-based month `m` (December of `y - 1` when `m = 0`). -/
theorem dateOfDayZero (y : Int) (m : Nat) (hm : m ≤ 12) :
    (dateFromDay (makeDay y (m : Int) 0)).day = specPrevMonthDays y m := by
  have hsplit : y = y % 400 + 400 * (y / 400) := by omega
  have hr0 : 0 ≤ y % 400 := by omega
  have hr4 : y % 400 < 400 := by omega
  have h1 : makeDay y (m : Int) 0 = makeDay (y % 400) (m : Int) 0 + 146097 * (y / 400) := by
    conv_lhs => rw [hsplit]
    exact makeDay_add_400_mul (y % 400) (y / 400) (m : Int) 0
  have hbase := dateOfDayZero_base (y % 400).toNat (by omega) m (by omega)
  rw [Int.toNat_of_nonneg hr0] at hbase
  have h2 : specPrevMonthDays (y % 400) m = specPrevMonthDays y m := by
    simp only [specPrevMonthDays]
    rcases Nat.eq_zero_or_pos m with h0 | h0
    · subst h0
      have hrw : y - 1 = (y % 400 - 1) + 400 * (y / 400) := by omega
      simp only [if_pos rfl, eq_self_iff_true, if_true]
      rw [hrw, specDaysInMonth_add_400_mul]
    · rw [if_neg (by omega), if_neg (by omega)]
      conv_rhs => rw [hsplit]
      rw [specDaysInMonth_add_400_mul]
  rw [h1, dateFromDay_add_146097_mul]
  simp only
  rw [hbase, h2]

/-- The reference month length is always between 28 and 31. -/
theorem specDaysInMonth_bounds (y : Int) (m : Nat) :
    28 ≤ specDaysInMonth y m ∧ specDaysInMonth y m ≤ 31 := by
  simp only [specDaysInMonth]
  split_ifs <;> omega

theorem specPrevMonthDays_bounds (y : Int) (m : Nat) :
    28 ≤ specPrevMonthDays y m ∧ specPrevMonthDays y m ≤ 31 := by
  simp only [specPrevMonthDays]
  split_ifs <;> exact specDaysInMonth_bounds _ _

/-- The weekday value is always in `[0, 6]`. -/
theorem weekDay_bounds (z : Int) : 0 ≤ weekDay z ∧ weekDay z < 7 := by
  simp only [weekDay]; omega

/-! ### JavaScript string comparison

The widget compares `YYYY-MM-DD` strings with JavaScript `<=` / `>=`, which
is lexicographic comparison of code units.  `charsLe` implements that
algorithm directly; `jsStringLe_iff` identifies it with the lexicographic
order on Lean strings. -/

/-- Lexicographic less-or-equal on character sequences, as JavaScript string
relational comparison performs it: scan from the left, decide at the first
position where the code units differ, and otherwise let the shorter string
compare as smaller. -/
def charsLe : List Char → List Char → Bool
  | [], _ => true
  | _ :: _, [] => false
  | a :: as, b :: bs => if a < b then true else if b < a then false else charsLe as bs

theorem charsLe_iff : ∀ (a b : List Char), charsLe a b = true ↔ ¬ List.lt b a
  | [], b => by
    constructor
    · intro _ h; cases h
    · intro _; rfl
  | a :: as, [] => by
    simp only [charsLe]
    constructor
    · intro h; cases h
    · intro h; exact absurd (List.lt.nil a as) h
  | a :: as, b :: bs => by
    simp only [charsLe]
    by_cases hab : a < b
    · rw [if_pos hab]
      simp only [true_iff]
      intro h
      cases h with
      | head _ _ hba => exact absurd hba (lt_asymm hab)
      | tail h1 h2 h3 => exact h2 hab
    · rw [if_neg hab]
      by_cases hba : b < a
      · rw [if_pos hba]
        constructor
        · intro h; cases h
        · intro h; exact absurd (List.lt.head bs as hba) h
      · rw [if_neg hba]
        rw [charsLe_iff as bs]
        constructor
        · intro h hlt
          cases hlt with
          | head _ _ h2 => exact hba h2
          | tail h1 h2 h3 => exact h h3
        · intro h hlt
          exact h (List.lt.tail hba hab hlt)

/-- JavaScript `a <= b` on strings. -/
def jsStringLe (a b : String) : Bool := charsLe a.data b.data

/-- The JavaScript string comparison agrees with the lexicographic order on
Lean strings. -/
theorem jsStringLe_iff (a b : String) : jsStringLe a b = true ↔ a ≤ b := by
  rw [jsStringLe, charsLe_iff]
  constructor
  · intro h
    show ¬ b < a
    intro hlt
    exact h ((List.lt_iff_lex_lt b.data a.data).mpr (String.lt_iff_toList_lt.mp hlt))
  · intro h hlt
    exact h (String.lt_iff_toList_lt.mpr ((List.lt_iff_lex_lt b.data a.data).mp hlt))

/-! ### The calendar widget (`CalendarWidget` in `static/task_selector.js`)

`render` walks three loops — trailing days of the previous month, the days
of the current month, and leading days of the next month — emitting one cell
per day.  A cell of the current month carries the CSS classes
`today`, `weekend`, `filter-start`, `filter-end`, `in-filter-range` (only
when not a boundary) and `selected` (only when not today), plus an event dot
when its date is in `eventDates`; filler cells of adjacent months carry none
of these marks.  `DayCell` records exactly that output. -/

/-- `formatDate`'s zero padding: `String(n).padStart(2, "0")`. -/
def padZero2 (n : Nat) : String :=
  if n < 10 then "0" ++ toString n else toString n

/-- `formatDate(year, month, day)`: the `YYYY-MM-DD` string (month is
0-based internally, printed 1-based and zero-padded). -/
def formatDate (year : Int) (month : Nat) (day : Nat) : String :=
  toString year ++ "-" ++ padZero2 (month + 1) ++ "-" ++ padZero2 day

/-- One rendered day cell: the day number shown, whether it belongs to the
displayed month, its date string (absent on filler cells, which the code
renders without a date or click handler), and the display marks emitted for
it. -/
structure DayCell where
  dayOfMonth : Nat
  inCurrentMonth : Bool
  date : Option String
  isToday : Bool
  isWeekend : Bool
  hasEvent : Bool
  isSelected : Bool
  isFilterStart : Bool
  isFilterEnd : Bool
  isInFilterRange : Bool
deriving DecidableEq, Repr

/-- A filler cell of an adjacent month: rendered with class `other-month`
and no further marks. -/
def fillerCell (day : Nat) : DayCell :=
  { dayOfMonth := day, inCurrentMonth := false, date := none,
    isToday := false, isWeekend := false, hasEvent := false, isSelected := false,
    isFilterStart := false, isFilterEnd := false, isInFilterRange := false }

/-- JavaScript falsiness of a nullable string: `null` and `""` are falsy. -/
def jsFalsy : Option String → Bool
  | none => true
  | some s => s.isEmpty

/-- `isInFilterRange(dateStr)`: false unless both filter endpoints are
truthy, otherwise `filterStartDate <= dateStr && dateStr <= filterEndDate`
by string comparison. -/
def inFilterRange (filterStartDate filterEndDate : Option String) (dateStr : String) : Bool :=
  if jsFalsy filterStartDate || jsFalsy filterEndDate then false
  else jsStringLe (filterStartDate.getD "") dateStr && jsStringLe dateStr (filterEndDate.getD "")

/-- The cell rendered for day `day` of the displayed month: date string,
`today` / `weekend` marks, event dot, `selected` only when not today, filter
boundary marks by string equality, and the interior range mark only when the
cell is not a boundary. -/
def monthDayCell (year : Int) (month : Nat) (today : JsDate) (eventDates : List String)
    (selectedDate filterStartDate filterEndDate : Option String) (day : Nat) : DayCell :=
  let dateStr := formatDate year month day
  let isToday := today.year == year && today.month == month && today.day == day
  let wd := weekDay (makeDay year (month : Int) (day : Int))
  let isWeekend := wd == 0 || wd == 6
  let hasEvent := eventDates.contains dateStr
  let isSelected := selectedDate == some dateStr
  let isFilterStart := filterStartDate == some dateStr
  let isFilterEnd := filterEndDate == some dateStr
  let inRange := inFilterRange filterStartDate filterEndDate dateStr
  { dayOfMonth := day, inCurrentMonth := true, date := some dateStr,
    isToday := isToday, isWeekend := isWeekend, hasEvent := hasEvent,
    isSelected := isSelected && !isToday,
    isFilterStart := isFilterStart, isFilterEnd := isFilterEnd,
    isInFilterRange := inRange && !isFilterStart && !isFilterEnd }

/-- `daysInMonth`: `new Date(year, month + 1, 0).getDate()`. -/
def daysInMonth (year : Int) (month : Nat) : Nat :=
  (dateFromDay (makeDay year ((month : Int) + 1) 0)).day

/-- `startDay`: `new Date(year, month, 1).getDay() - 1`, mapped to 6 when
negative (Sunday), giving the Monday-first column of the month's first day. -/
def startDay (year : Int) (month : Nat) : Nat :=
  (if weekDay (makeDay year (month : Int) 1) - 1 < 0 then 6
   else weekDay (makeDay year (month : Int) 1) - 1).toNat

/-- `prevMonthDays`: `new Date(year, month, 0).getDate()`, the length of the
month before the displayed one. -/
def prevMonthDays (year : Int) (month : Nat) : Nat :=
  (dateFromDay (makeDay year (month : Int) 0)).day

/-- The loop `for (let i = startDay - 1; i >= 0; i--)` emitting the trailing
days of the previous month as filler cells `prevMonthDays - i`. -/
def prevMonthCells (year : Int) (month : Nat) : List DayCell :=
  (List.range (startDay year month)).map
    (fun j => fillerCell (prevMonthDays year month - (startDay year month - 1 - j)))

/-- The loop `for (let day = 1; day <= daysInMonth; day++)`. -/
def currentMonthCells (year : Int) (month : Nat) (today : JsDate) (eventDates : List String)
    (selectedDate filterStartDate filterEndDate : Option String) : List DayCell :=
  (List.range (daysInMonth year month)).map
    (fun k => monthDayCell year month today eventDates
      selectedDate filterStartDate filterEndDate (k + 1))

/-- The final padding loop: when `(startDay + daysInMonth) % 7 > 0`, emit
filler cells `1 .. 7 - remainder` for the next month. -/
def nextMonthCells (year : Int) (month : Nat) : List DayCell :=
  let remainder := (startDay year month + daysInMonth year month) % 7
  if 0 < remainder then (List.range (7 - remainder)).map (fun i => fillerCell (i + 1))
  else []

/-- The full day-cell sequence `render` produces for the displayed month. -/
def computeMonthGrid (year : Int) (month : Nat) (today : JsDate) (eventDates : List String)
    (selectedDate filterStartDate filterEndDate : Option String) : List DayCell :=
  prevMonthCells year month ++
    currentMonthCells year month today eventDates selectedDate filterStartDate filterEndDate ++
    nextMonthCells year month

/-- The widget's mutable state: the `Date` whose year and month are
displayed, the last selected date string, the configured event dates and
filter endpoints, and whether an `onDateSelect` callback was supplied at
construction. -/
structure CalendarWidget where
  currentDate : JsDate
  selectedDate : Option String
  eventDates : List String
  filterStartDate : Option String
  filterEndDate : Option String
  hasOnDateSelect : Bool
deriving Repr

/-- `render` for a given today reference: the grid for
`currentDate.getFullYear()` / `currentDate.getMonth()`. -/
def CalendarWidget.render (w : CalendarWidget) (today : JsDate) : List DayCell :=
  computeMonthGrid w.currentDate.year w.currentDate.month today
    w.eventDates w.selectedDate w.filterStartDate w.filterEndDate

/-- `prevMonth()`: `this.currentDate.setMonth(this.currentDate.getMonth() - 1)`. -/
def CalendarWidget.prevMonth (w : CalendarWidget) : CalendarWidget :=
  { w with currentDate := w.currentDate.setMonth ((w.currentDate.month : Int) - 1) }

/-- `nextMonth()`: `this.currentDate.setMonth(this.currentDate.getMonth() + 1)`. -/
def CalendarWidget.nextMonth (w : CalendarWidget) : CalendarWidget :=
  { w with currentDate := w.currentDate.setMonth ((w.currentDate.month : Int) + 1) }

/-- The externally observable effect of `selectDate`: either the
construction-time callback is invoked with the chosen date, or the browser
is asked to navigate with `start_date`, `end_date` and `period` query
parameters. -/
inductive SelectEffect where
  | callbackInvoked (date : String)
  | navigated (startDate endDate period : String)
deriving DecidableEq, Repr

/-- `selectDate(dateStr)`: store the selection, then either invoke the
callback or request navigation with both date parameters set to the
selected date and `period=custom`.  The updated widget re-renders. -/
def CalendarWidget.selectDate (w : CalendarWidget) (dateStr : String) :
    CalendarWidget × SelectEffect :=
  ({ w with selectedDate := some dateStr },
   if w.hasOnDateSelect then SelectEffect.callbackInvoked dateStr
   else SelectEffect.navigated dateStr dateStr "custom")

/-! ### Task search (`searchTasks` in `static/task_selector.js`) -/

/-- The urgency text and colour derived from `task.days_remaining`:
0 is due today in red, 1 is due tomorrow in amber, anything else gets the
generic business-days message in green. -/
def urgencyTextAndColor (daysRemaining : Int) : String × String :=
  if daysRemaining = 0 then ("¡VENCE HOY!", "#dc2626")
  else if daysRemaining = 1 then ("Vence mañana (1 día hábil)", "#f59e0b")
  else ("Vence en " ++ toString daysRemaining ++ " días hábiles", "#059669")

/-! ### Helper lemmas about the grid -/

theorem daysInMonth_eq (year : Int) (month : Nat) (hm : month ≤ 11) :
    daysInMonth year month = specDaysInMonth year month := by
  have h := dateOfDayZero year (month + 1) (by omega)
  rw [daysInMonth]
  rw [show ((month : Int) + 1) = ((month + 1 : Nat) : Int) by push_cast; ring]
  rw [h, specPrevMonthDays, if_neg (by omega)]
  simp

theorem prevMonthDays_eq (year : Int) (month : Nat) (hm : month ≤ 11) :
    prevMonthDays year month = specPrevMonthDays year month :=
  dateOfDayZero year month (by omega)

theorem startDay_lt_7 (year : Int) (month : Nat) : startDay year month < 7 := by
  have hb := weekDay_bounds (makeDay year (month : Int) 1)
  rw [startDay]
  split_ifs <;> omega

theorem daysInMonth_bounds (year : Int) (month : Nat) (hm : month ≤ 11) :
    28 ≤ daysInMonth year month ∧ daysInMonth year month ≤ 31 := by
  rw [daysInMonth_eq year month hm]
  exact specDaysInMonth_bounds year month

theorem takeWhile_append_of_all {α : Type} {p : α → Bool} {l₁ l₂ : List α}
    (h : ∀ x ∈ l₁, p x = true) :
    (l₁ ++ l₂).takeWhile p = l₁ ++ l₂.takeWhile p := by
  induction l₁ with
  | nil => simp
  | cons a l ih =>
    simp only [List.cons_append, List.takeWhile_cons, h a (List.mem_cons_self a l), if_true]
    rw [ih (fun x hx => h x (List.mem_cons_of_mem a hx))]

/-- Monday-first weekday offset of the first day of the month, per the
specification formula: `((weekday - 1) mod 7 + 7) mod 7`, where `weekday` is
the Sunday-first value `getDay` reports. -/
def specStartOffset (year : Int) (month : Nat) : Int :=
  ((weekDay (makeDay year (month : Int) 1) - 1) % 7 + 7) % 7

theorem startDay_cast (year : Int) (month : Nat) :
    (startDay year month : Int) = specStartOffset year month := by
  have hb := weekDay_bounds (makeDay year (month : Int) 1)
  rw [startDay, specStartOffset]
  split_ifs with h <;> omega

theorem takeWhile_grid_eq (year : Int) (month : Nat) (hm : month ≤ 11)
    (today : JsDate) (eventDates : List String)
    (selectedDate filterStartDate filterEndDate : Option String) :
    (computeMonthGrid year month today eventDates selectedDate filterStartDate
        filterEndDate).takeWhile (fun c => !c.inCurrentMonth) =
      prevMonthCells year month := by
  have hd := daysInMonth_bounds year month hm
  obtain ⟨n, hn⟩ : ∃ n, daysInMonth year month = n + 1 :=
    ⟨daysInMonth year month - 1, by omega⟩
  have hprev : ∀ x ∈ prevMonthCells year month, (!x.inCurrentMonth) = true := by
    intro x hx
    simp only [prevMonthCells, List.mem_map, List.mem_range] at hx
    obtain ⟨j, _, rfl⟩ := hx
    simp [fillerCell]
  obtain ⟨c0, t0, hct, hpc⟩ :
      ∃ c0 t0, currentMonthCells year month today eventDates selectedDate filterStartDate
          filterEndDate = c0 :: t0 ∧ (!c0.inCurrentMonth) = false := by
    rw [currentMonthCells, hn, List.range_succ_eq_map, List.map_cons]
    exact ⟨_, _, rfl, by simp [monthDayCell]⟩
  rw [computeMonthGrid, List.append_assoc, takeWhile_append_of_all hprev, hct,
    List.cons_append, List.takeWhile_cons, hpc]
  simp

/-! ### Claim theorems (C2 - C5) -/

/-- C2: for every integer year and month 0-11, the rendered grid has a
positive length divisible by 7, and filler cells of adjacent months carry no
today, event, selected or filter marks. -/
theorem computeMonthGrid_complete_weeks (year : Int) (month : Nat) (hm : month ≤ 11)
    (today : JsDate) (eventDates : List String)
    (selectedDate filterStartDate filterEndDate : Option String) :
    (computeMonthGrid year month today eventDates selectedDate filterStartDate
        filterEndDate).length % 7 = 0 ∧
    0 < (computeMonthGrid year month today eventDates selectedDate filterStartDate
        filterEndDate).length ∧
    ∀ c ∈ computeMonthGrid year month today eventDates selectedDate filterStartDate
        filterEndDate, c.inCurrentMonth = false →
      c.isToday = false ∧ c.hasEvent = false ∧ c.isSelected = false ∧
      c.isFilterStart = false ∧ c.isFilterEnd = false ∧ c.isInFilterRange = false := by
  have hd := daysInMonth_bounds year month hm
  have hlen : (computeMonthGrid year month today eventDates selectedDate filterStartDate
      filterEndDate).length =
      startDay year month + daysInMonth year month +
        (nextMonthCells year month).length := by
    simp [computeMonthGrid, prevMonthCells, currentMonthCells, List.length_append]
    omega
  have hnext : (nextMonthCells year month).length =
      (if 0 < (startDay year month + daysInMonth year month) % 7
       then 7 - (startDay year month + daysInMonth year month) % 7 else 0) := by
    rw [nextMonthCells]
    split_ifs with h <;> simp [h]
  refine ⟨?_, ?_, ?_⟩
  · rw [hlen, hnext]; split_ifs with h <;> omega
  · rw [hlen]; omega
  · intro c hc
    simp only [computeMonthGrid, List.mem_append] at hc
    rcases hc with (hc | hc) | hc
    · simp only [prevMonthCells, List.mem_map, List.mem_range] at hc
      obtain ⟨j, _, rfl⟩ := hc
      intro _; simp [fillerCell]
    · simp only [currentMonthCells, List.mem_map, List.mem_range] at hc
      obtain ⟨k, _, rfl⟩ := hc
      intro hfalse
      simp [monthDayCell] at hfalse
    · rw [nextMonthCells] at hc
      split_ifs at hc with h
      · simp only [List.mem_map, List.mem_range] at hc
        obtain ⟨i, _, rfl⟩ := hc
        intro _; simp [fillerCell]
      · simp at hc

/-- C3: for every valid (year, month), the number of cells marked as
belonging to the displayed month equals the reference month length
(31/30, February 29 in leap years per the standard rule, else 28). -/
theorem computeMonthGrid_inMonth_count (year : Int) (month : Nat) (hm : month ≤ 11)
    (today : JsDate) (eventDates : List String)
    (selectedDate filterStartDate filterEndDate : Option String) :
    (computeMonthGrid year month today eventDates selectedDate filterStartDate
        filterEndDate).countP (fun c => c.inCurrentMonth) = specDaysInMonth year month := by
  rw [computeMonthGrid, List.countP_append, List.countP_append]
  have h1 : (prevMonthCells year month).countP (fun c => c.inCurrentMonth) = 0 := by
    rw [prevMonthCells, List.countP_map]
    simp [Function.comp, fillerCell, List.countP_eq_zero]
  have h2 : (currentMonthCells year month today eventDates selectedDate filterStartDate
      filterEndDate).countP (fun c => c.inCurrentMonth) =
      daysInMonth year month := by
    rw [currentMonthCells, List.countP_map]
    have : ∀ l : List Nat, l.countP
        ((fun c => c.inCurrentMonth) ∘ (fun k => monthDayCell year month today eventDates
          selectedDate filterStartDate filterEndDate (k + 1))) = l.length := by
      intro l
      apply List.countP_eq_length.mpr
      intro a _
      simp [Function.comp, monthDayCell]
    rw [this, List.length_range]
  have h3 : (nextMonthCells year month).countP (fun c => c.inCurrentMonth) = 0 := by
    rw [nextMonthCells]
    split_ifs with h
    · rw [List.countP_map]
      simp [Function.comp, fillerCell, List.countP_eq_zero]
    · rfl
  rw [h1, h2, h3, daysInMonth_eq year month hm]
  omega

/-- C4: the number of leading filler cells equals the Monday-first weekday
offset of the month's first day; in particular March 2024 has offset 4 and a
35-cell grid. -/
theorem computeMonthGrid_leading_offset (year : Int) (month : Nat) (hm : month ≤ 11)
    (today : JsDate) (eventDates : List String)
    (selectedDate filterStartDate filterEndDate : Option String) :
    ((((computeMonthGrid year month today eventDates selectedDate filterStartDate
        filterEndDate).takeWhile (fun c => !c.inCurrentMonth)).length : Int) =
      specStartOffset year month) ∧
    ((computeMonthGrid 2024 2 ⟨2024, 2, 15⟩ [] none none none).takeWhile
        (fun c => !c.inCurrentMonth)).length = 4 ∧
    (computeMonthGrid 2024 2 ⟨2024, 2, 15⟩ [] none none none).length = 35 := by
  refine ⟨?_, by decide, by decide⟩
  rw [takeWhile_grid_eq year month hm today eventDates selectedDate filterStartDate
    filterEndDate]
  rw [prevMonthCells, List.length_map, List.length_range, startDay_cast]

/-- C5: when the start offset `k` is positive, the `k` leading filler cells
carry the last `k` day numbers of the previous month in ascending order
(rolling to December of the previous year for January), with no display
marks. -/
theorem computeMonthGrid_leading_filler_days (year : Int) (month : Nat) (hm : month ≤ 11)
    (today : JsDate) (eventDates : List String)
    (selectedDate filterStartDate filterEndDate : Option String)
    (hk : 0 < startDay year month) :
    ((computeMonthGrid year month today eventDates selectedDate filterStartDate
        filterEndDate).take (startDay year month) =
      (List.range (startDay year month)).map
        (fun j => fillerCell (specPrevMonthDays year month + 1 + j - startDay year month))) ∧
    ∀ c ∈ (computeMonthGrid year month today eventDates selectedDate filterStartDate
        filterEndDate).take (startDay year month),
      c.inCurrentMonth = false ∧ c.isToday = false ∧ c.isWeekend = false ∧
      c.hasEvent = false ∧ c.isSelected = false ∧ c.isFilterStart = false ∧
      c.isFilterEnd = false ∧ c.isInFilterRange = false := by
  have hs := startDay_lt_7 year month
  have hp : 28 ≤ specPrevMonthDays year month ∧ specPrevMonthDays year month ≤ 31 :=
    specPrevMonthDays_bounds year month
  have hlenp : (prevMonthCells year month).length = startDay year month := by
    rw [prevMonthCells, List.length_map, List.length_range]
  have htake : (computeMonthGrid year month today eventDates selectedDate filterStartDate
      filterEndDate).take (startDay year month) = prevMonthCells year month := by
    rw [computeMonthGrid, List.append_assoc, ← hlenp, List.take_left]
  have hmapeq : prevMonthCells year month =
      (List.range (startDay year month)).map
        (fun j => fillerCell (specPrevMonthDays year month + 1 + j - startDay year month)) := by
    rw [prevMonthCells, prevMonthDays_eq year month hm]
    apply List.map_congr_left
    intro j hj
    rw [List.mem_range] at hj
    congr 1
    omega
  refine ⟨by rw [htake, hmapeq], ?_⟩
  intro c hc
  rw [htake, hmapeq] at hc
  simp only [List.mem_map, List.mem_range] at hc
  obtain ⟨j, _, rfl⟩ := hc
  simp [fillerCell]

/-! ### Cell membership and projection helpers -/

theorem monthDayCell_date (year : Int) (month : Nat) (today : JsDate)
    (eventDates : List String) (sel fs fe : Option String) (day : Nat) :
    (monthDayCell year month today eventDates sel fs fe day).date =
      some (formatDate year month day) := rfl

theorem monthDayCell_isFilterStart (year : Int) (month : Nat) (today : JsDate)
    (eventDates : List String) (sel fs fe : Option String) (day : Nat) :
    (monthDayCell year month today eventDates sel fs fe day).isFilterStart =
      (fs == some (formatDate year month day)) := rfl

theorem monthDayCell_isFilterEnd (year : Int) (month : Nat) (today : JsDate)
    (eventDates : List String) (sel fs fe : Option String) (day : Nat) :
    (monthDayCell year month today eventDates sel fs fe day).isFilterEnd =
      (fe == some (formatDate year month day)) := rfl

theorem monthDayCell_isInFilterRange (year : Int) (month : Nat) (today : JsDate)
    (eventDates : List String) (sel fs fe : Option String) (day : Nat) :
    (monthDayCell year month today eventDates sel fs fe day).isInFilterRange =
      (inFilterRange fs fe (formatDate year month day) &&
        !(fs == some (formatDate year month day)) &&
        !(fe == some (formatDate year month day))) := rfl

theorem monthDayCell_isSelected (year : Int) (month : Nat) (today : JsDate)
    (eventDates : List String) (sel fs fe : Option String) (day : Nat) :
    (monthDayCell year month today eventDates sel fs fe day).isSelected =
      ((sel == some (formatDate year month day)) &&
        !(today.year == year && today.month == month && today.day == day)) := rfl

theorem monthDayCell_isToday (year : Int) (month : Nat) (today : JsDate)
    (eventDates : List String) (sel fs fe : Option String) (day : Nat) :
    (monthDayCell year month today eventDates sel fs fe day).isToday =
      (today.year == year && today.month == month && today.day == day) := rfl

theorem mem_computeMonthGrid_cases (year : Int) (month : Nat) (today : JsDate)
    (eventDates : List String) (sel fs fe : Option String) (c : DayCell)
    (hc : c ∈ computeMonthGrid year month today eventDates sel fs fe) :
    (∃ day, c = fillerCell day) ∨
    (∃ k, k < daysInMonth year month ∧
      c = monthDayCell year month today eventDates sel fs fe (k + 1)) := by
  simp only [computeMonthGrid, List.mem_append] at hc
  rcases hc with (hc | hc) | hc
  · simp only [prevMonthCells, List.mem_map, List.mem_range] at hc
    obtain ⟨j, _, rfl⟩ := hc
    exact Or.inl ⟨_, rfl⟩
  · simp only [currentMonthCells, List.mem_map, List.mem_range] at hc
    obtain ⟨k, hk, rfl⟩ := hc
    exact Or.inr ⟨k, hk, rfl⟩
  · rw [nextMonthCells] at hc
    split_ifs at hc with h
    · simp only [List.mem_map, List.mem_range] at hc
      obtain ⟨i, _, rfl⟩ := hc
      exact Or.inl ⟨_, rfl⟩
    · simp at hc

theorem mem_grid_with_date (year : Int) (month : Nat) (today : JsDate)
    (eventDates : List String) (sel fs fe : Option String) (c : DayCell)
    (hc : c ∈ computeMonthGrid year month today eventDates sel fs fe)
    (d : String) (hd : c.date = some d) :
    ∃ k, k < daysInMonth year month ∧ d = formatDate year month (k + 1) ∧
      c = monthDayCell year month today eventDates sel fs fe (k + 1) := by
  rcases mem_computeMonthGrid_cases year month today eventDates sel fs fe c hc with
    ⟨day, rfl⟩ | ⟨k, hk, rfl⟩
  · simp [fillerCell] at hd
  · rw [monthDayCell_date] at hd
    exact ⟨k, hk, (Option.some.inj hd).symm, rfl⟩

theorem grid_dates (year : Int) (month : Nat) (today : JsDate)
    (eventDates : List String) (sel fs fe : Option String) :
    (computeMonthGrid year month today eventDates sel fs fe).filterMap DayCell.date =
      (List.range (daysInMonth year month)).map (fun k => formatDate year month (k + 1)) := by
  have hnone : ∀ l : List Nat, ∀ f : Nat → Nat,
      (l.map (fun j => fillerCell (f j))).filterMap DayCell.date = [] := by
    intro l f
    induction l with
    | nil => rfl
    | cons a t ih => simp [fillerCell, ih]
  rw [computeMonthGrid, List.filterMap_append, List.filterMap_append]
  have h1 : (prevMonthCells year month).filterMap DayCell.date = [] := by
    rw [prevMonthCells]; exact hnone _ _
  have h3 : (nextMonthCells year month).filterMap DayCell.date = [] := by
    rw [nextMonthCells]
    split_ifs with h
    · exact hnone _ _
    · rfl
  have h2 : (currentMonthCells year month today eventDates sel fs fe).filterMap
      DayCell.date = (List.range (daysInMonth year month)).map
        (fun k => formatDate year month (k + 1)) := by
    rw [currentMonthCells]
    induction List.range (daysInMonth year month) with
    | nil => rfl
    | cons a t ih => simp [monthDayCell_date, ih, List.filterMap_cons]
  rw [h1, h2, h3, List.nil_append, List.append_nil]

/-! ### Claim theorems (C6 - C10, C1) -/

/-- C6: for every rendered in-month cell, the interior range mark holds
exactly when both filter endpoints are present (and non-empty) and the date
string lies between them while equalling neither; equality with an endpoint
yields the boundary mark instead, and with one endpoint absent no cell gets
the interior mark while the present endpoint still marks its boundary. -/
theorem computeMonthGrid_filter_flags (year : Int) (month : Nat) (_hm : month ≤ 11)
    (today : JsDate) (eventDates : List String)
    (selectedDate filterStartDate filterEndDate : Option String) :
    ∀ c ∈ computeMonthGrid year month today eventDates selectedDate filterStartDate
        filterEndDate, ∀ d, c.date = some d →
      (c.isFilterStart = true ↔ filterStartDate = some d) ∧
      (c.isFilterEnd = true ↔ filterEndDate = some d) ∧
      ((filterStartDate = none ∨ filterEndDate = none) → c.isInFilterRange = false) ∧
      (c.isInFilterRange = true ↔ ∃ s e, filterStartDate = some s ∧
        filterEndDate = some e ∧ s ≠ "" ∧ e ≠ "" ∧ s ≤ d ∧ d ≤ e ∧ d ≠ s ∧ d ≠ e) := by
  intro c hc d hd
  obtain ⟨k, hk, hdeq, rfl⟩ := mem_grid_with_date year month today eventDates selectedDate
    filterStartDate filterEndDate c hc d hd
  subst hdeq
  refine ⟨?_, ?_, ?_, ?_⟩
  · rw [monthDayCell_isFilterStart]; exact beq_iff_eq
  · rw [monthDayCell_isFilterEnd]; exact beq_iff_eq
  · intro hone
    rw [monthDayCell_isInFilterRange]
    rcases hone with h | h <;> subst h <;>
      simp [inFilterRange, jsFalsy]
  · rw [monthDayCell_isInFilterRange]
    rcases filterStartDate with _ | s
    · simp [inFilterRange, jsFalsy]
    rcases filterEndDate with _ | e
    · simp [inFilterRange, jsFalsy]
    by_cases hs0 : s.isEmpty = true
    · constructor
      · intro h
        exfalso
        simp [inFilterRange, jsFalsy, hs0] at h
      · rintro ⟨s2, e2, hs2, he2, hsne, -, -⟩
        obtain rfl : s = s2 := by injection hs2
        exact absurd ((String.isEmpty_iff s).mp hs0) hsne
    by_cases he0 : e.isEmpty = true
    · constructor
      · intro h
        exfalso
        simp [inFilterRange, jsFalsy, he0] at h
      · rintro ⟨s2, e2, hs2, he2, -, hene, -⟩
        obtain rfl : e = e2 := by injection he2
        exact absurd ((String.isEmpty_iff e).mp he0) hene
    have hcond : ¬ ((jsFalsy (some s) || jsFalsy (some e)) = true) := by
      simp [jsFalsy, hs0, he0]
    constructor
    · intro h
      rw [Bool.and_eq_true, Bool.and_eq_true] at h
      obtain ⟨⟨hr, hns⟩, hne2⟩ := h
      simp only [inFilterRange, if_neg hcond, Option.getD_some, Bool.and_eq_true] at hr
      obtain ⟨h1, h2⟩ := hr
      rw [Bool.not_eq_true', beq_eq_false_iff_ne] at hns hne2
      refine ⟨s, e, rfl, rfl, fun hh => hs0 (by rw [hh]; rfl),
        fun hh => he0 (by rw [hh]; rfl),
        (jsStringLe_iff _ _).mp h1, (jsStringLe_iff _ _).mp h2, ?_, ?_⟩
      · intro hh
        exact hns (by rw [hh])
      · intro hh
        exact hne2 (by rw [hh])
    · rintro ⟨s2, e2, hs2, he2, -, -, h1, h2, h3, h4⟩
      obtain rfl : s = s2 := by injection hs2
      obtain rfl : e = e2 := by injection he2
      rw [Bool.and_eq_true, Bool.and_eq_true]
      refine ⟨⟨?_, ?_⟩, ?_⟩
      · simp only [inFilterRange, if_neg hcond, Option.getD_some, Bool.and_eq_true]
        exact ⟨(jsStringLe_iff _ _).mpr h1, (jsStringLe_iff _ _).mpr h2⟩
      · rw [Bool.not_eq_true', beq_eq_false_iff_ne]
        exact fun hh => h3 (Option.some.inj hh).symm
      · rw [Bool.not_eq_true', beq_eq_false_iff_ne]
        exact fun hh => h4 (Option.some.inj hh).symm

/-- C7: `selectDate` records the chosen date, then either invokes the
supplied callback with it or requests navigation with
`start_date = end_date = date` and `period=custom`; in the re-rendered grid
the selected mark sits exactly on the in-month cell of the chosen date when
that cell is not today. -/
theorem selectDate_reports_selection (w : CalendarWidget) (dateStr : String)
    (today : JsDate) :
    (w.selectDate dateStr).1.selectedDate = some dateStr ∧
    (w.hasOnDateSelect = true →
      (w.selectDate dateStr).2 = SelectEffect.callbackInvoked dateStr) ∧
    (w.hasOnDateSelect = false →
      (w.selectDate dateStr).2 = SelectEffect.navigated dateStr dateStr "custom") ∧
    ∀ c ∈ (w.selectDate dateStr).1.render today,
      (c.isSelected = true ↔ (c.date = some dateStr ∧ c.isToday = false)) := by
  refine ⟨rfl, ?_, ?_, ?_⟩
  · intro h; simp [CalendarWidget.selectDate, h]
  · intro h; simp [CalendarWidget.selectDate, h]
  · intro c hc
    rcases mem_computeMonthGrid_cases _ _ _ _ _ _ _ c hc with ⟨day, rfl⟩ | ⟨k, hk, rfl⟩
    · simp [fillerCell]
    · rw [monthDayCell_isSelected, monthDayCell_date, monthDayCell_isToday]
      rw [Bool.and_eq_true, Bool.not_eq_true']
      constructor
      · rintro ⟨h1, h2⟩
        rw [show (w.selectDate dateStr).1.selectedDate = some dateStr from rfl] at h1
        exact ⟨(beq_iff_eq.mp h1).symm, h2⟩
      · rintro ⟨h1, h2⟩
        refine ⟨?_, h2⟩
        rw [show (w.selectDate dateStr).1.selectedDate = some dateStr from rfl]
        exact beq_iff_eq.mpr h1.symm

/-- C8 (amended): the grid computation is total on arbitrary strings, and a
string that matches no generated cell date marks no cell as having an event
and sets no filter boundary mark.  (Interior range highlighting is governed
by raw lexicographic comparison and is not covered by this statement.) -/
theorem computeMonthGrid_junk_string_tolerance (year : Int) (month : Nat)
    (hm : month ≤ 11) (today : JsDate) (eventDates : List String)
    (selectedDate filterStartDate filterEndDate : Option String) (s : String) :
    0 < (computeMonthGrid year month today eventDates selectedDate filterStartDate
        filterEndDate).length ∧
    (s ∉ (computeMonthGrid year month today eventDates selectedDate filterStartDate
        filterEndDate).filterMap DayCell.date →
      computeMonthGrid year month today (s :: eventDates) selectedDate filterStartDate
          filterEndDate =
        computeMonthGrid year month today eventDates selectedDate filterStartDate
          filterEndDate) ∧
    (s ∉ (computeMonthGrid year month today eventDates selectedDate filterStartDate
        filterEndDate).filterMap DayCell.date →
      ∀ c ∈ computeMonthGrid year month today eventDates selectedDate (some s)
          filterEndDate, c.isFilterStart = false) ∧
    (s ∉ (computeMonthGrid year month today eventDates selectedDate filterStartDate
        filterEndDate).filterMap DayCell.date →
      ∀ c ∈ computeMonthGrid year month today eventDates selectedDate filterStartDate
          (some s), c.isFilterEnd = false) := by
  have hdates := grid_dates year month today eventDates selectedDate filterStartDate
    filterEndDate
  have hnotdate : s ∉ (computeMonthGrid year month today eventDates selectedDate
      filterStartDate filterEndDate).filterMap DayCell.date →
      ∀ k, k < daysInMonth year month → s ≠ formatDate year month (k + 1) := by
    intro hs k hk heq
    apply hs
    rw [hdates]
    exact List.mem_map.mpr ⟨k, List.mem_range.mpr hk, heq.symm⟩
  refine ⟨?_, ?_, ?_, ?_⟩
  · exact (computeMonthGrid_complete_weeks year month hm today eventDates selectedDate
      filterStartDate filterEndDate).2.1
  · intro hs
    have hcells : currentMonthCells year month today (s :: eventDates) selectedDate
        filterStartDate filterEndDate =
        currentMonthCells year month today eventDates selectedDate filterStartDate
          filterEndDate := by
      rw [currentMonthCells, currentMonthCells]
      apply List.map_congr_left
      intro k hkmem
      rw [List.mem_range] at hkmem
      have hne := hnotdate hs k hkmem
      have hcont : (s :: eventDates).contains (formatDate year month (k + 1)) =
          eventDates.contains (formatDate year month (k + 1)) := by
        rw [List.contains_cons]
        rw [beq_eq_false_iff_ne.mpr (fun hh => hne hh.symm)]
        rfl
      simp only [monthDayCell, hcont]
    rw [computeMonthGrid, computeMonthGrid, hcells]
  · intro hs c hc
    rcases mem_computeMonthGrid_cases _ _ _ _ _ _ _ c hc with ⟨day, rfl⟩ | ⟨k, hk, rfl⟩
    · rfl
    · rw [monthDayCell_isFilterStart]
      rw [beq_eq_false_iff_ne]
      intro hh
      exact hnotdate hs k hk (Option.some.inj hh)
  · intro hs c hc
    rcases mem_computeMonthGrid_cases _ _ _ _ _ _ _ c hc with ⟨day, rfl⟩ | ⟨k, hk, rfl⟩
    · rfl
    · rw [monthDayCell_isFilterEnd]
      rw [beq_eq_false_iff_ne]
      intro hh
      exact hnotdate hs k hk (Option.some.inj hh)

/-- C8 (counterexample to the claim as stated): with filter endpoints "0"
and "z" — neither equal to any generated March 2024 cell date — the cell of
2024-03-01 still receives the interior in-filter-range mark, because the
range test is raw lexicographic comparison. -/
theorem filter_highlight_nonmatching_counterexample :
    ((computeMonthGrid 2024 2 ⟨2024, 2, 15⟩ [] none (some "0") (some "z")).filterMap
        DayCell.date).contains "0" = false ∧
    ((computeMonthGrid 2024 2 ⟨2024, 2, 15⟩ [] none (some "0") (some "z")).filterMap
        DayCell.date).contains "z" = false ∧
    ((computeMonthGrid 2024 2 ⟨2024, 2, 15⟩ [] none (some "0") (some "z"))[4]?).map
        DayCell.isInFilterRange = some true ∧
    ((computeMonthGrid 2024 2 ⟨2024, 2, 15⟩ [] none (some "0") (some "z"))[4]?).map
        DayCell.date = some (some "2024-03-01") := by
  decide

/-- C10: the urgency classification is total on the integers: 0 is due
today in red, 1 is due tomorrow in amber, and every other value — negative
included — gets the generic business-days text in green. -/
theorem urgency_classification_total :
    urgencyTextAndColor 0 = ("¡VENCE HOY!", "#dc2626") ∧
    urgencyTextAndColor 1 = ("Vence mañana (1 día hábil)", "#f59e0b") ∧
    ∀ n : Int, n ≠ 0 → n ≠ 1 →
      urgencyTextAndColor n = ("Vence en " ++ toString n ++ " días hábiles", "#059669") := by
  refine ⟨rfl, rfl, ?_⟩
  intro n h0 h1
  rw [urgencyTextAndColor, if_neg h0, if_neg h1]

/-- C1: navigation is implemented with `Date.setMonth`, whose day-of-month
overflow skips a month: from a widget whose current date is 2024-01-31
(showing January 2024), `nextMonth` lands on 2024-03-02 — March, not
February — and `nextMonth` followed by `prevMonth` displays February 2024,
not the original January.  This contradicts the stated round-trip property
and the documented intent of navigating by exactly one month. -/
theorem nextMonth_prevMonth_day_overflow :
    (CalendarWidget.nextMonth
        { currentDate := ⟨2024, 0, 31⟩, selectedDate := none, eventDates := [],
          filterStartDate := none, filterEndDate := none,
          hasOnDateSelect := false }).currentDate = ⟨2024, 2, 2⟩ ∧
    (CalendarWidget.prevMonth (CalendarWidget.nextMonth
        { currentDate := ⟨2024, 0, 31⟩, selectedDate := none, eventDates := [],
          filterStartDate := none, filterEndDate := none,
          hasOnDateSelect := false })).currentDate = ⟨2024, 1, 2⟩ := by
  decide

/-! ### Witnesses: the claim theorems applied at concrete inputs -/

theorem computeMonthGrid_complete_weeks_witness :
    (computeMonthGrid 2024 2 ⟨2024, 2, 15⟩ [] none none none).length % 7 = 0 :=
  (computeMonthGrid_complete_weeks 2024 2 (by decide) ⟨2024, 2, 15⟩ [] none none none).1

theorem computeMonthGrid_inMonth_count_witness :
    (computeMonthGrid 2024 1 ⟨2024, 2, 15⟩ [] none none none).countP
      (fun c => c.inCurrentMonth) = specDaysInMonth 2024 1 :=
  computeMonthGrid_inMonth_count 2024 1 (by decide) ⟨2024, 2, 15⟩ [] none none none

theorem computeMonthGrid_leading_offset_witness :
    (((computeMonthGrid 2025 9 ⟨2025, 9, 11⟩ [] none none none).takeWhile
        (fun c => !c.inCurrentMonth)).length : Int) = specStartOffset 2025 9 :=
  (computeMonthGrid_leading_offset 2025 9 (by decide) ⟨2025, 9, 11⟩ [] none none none).1

theorem computeMonthGrid_leading_filler_days_witness :
    (computeMonthGrid 2024 2 ⟨2024, 2, 15⟩ [] none none none).take (startDay 2024 2) =
      (List.range (startDay 2024 2)).map
        (fun j => fillerCell (specPrevMonthDays 2024 2 + 1 + j - startDay 2024 2)) :=
  (computeMonthGrid_leading_filler_days 2024 2 (by decide) ⟨2024, 2, 15⟩ [] none none
    none (by decide)).1

theorem computeMonthGrid_filter_flags_witness :
    ((computeMonthGrid 2024 2 ⟨2024, 2, 15⟩ [] none (some "2024-03-10")
        (some "2024-03-15")).get ⟨15, by decide⟩).isInFilterRange = true :=
  ((computeMonthGrid_filter_flags 2024 2 (by decide) ⟨2024, 2, 15⟩ [] none
      (some "2024-03-10") (some "2024-03-15")
      ((computeMonthGrid 2024 2 ⟨2024, 2, 15⟩ [] none (some "2024-03-10")
        (some "2024-03-15")).get ⟨15, by decide⟩)
      (List.get_mem _ 15 (by decide)) "2024-03-12" (by decide)).2.2.2).mpr
    ⟨"2024-03-10", "2024-03-15", rfl, rfl, by decide, by decide,
      (jsStringLe_iff _ _).mp (by decide), (jsStringLe_iff _ _).mp (by decide),
      by decide, by decide⟩

theorem selectDate_reports_selection_witness :
    (CalendarWidget.selectDate
        { currentDate := ⟨2024, 2, 1⟩, selectedDate := none, eventDates := [],
          filterStartDate := none, filterEndDate := none, hasOnDateSelect := false }
        "2024-03-12").2 = SelectEffect.navigated "2024-03-12" "2024-03-12" "custom" :=
  (selectDate_reports_selection
    { currentDate := ⟨2024, 2, 1⟩, selectedDate := none, eventDates := [],
      filterStartDate := none, filterEndDate := none, hasOnDateSelect := false }
    "2024-03-12" ⟨2024, 2, 15⟩).2.2.1 rfl

theorem computeMonthGrid_junk_string_tolerance_witness :
    computeMonthGrid 2024 2 ⟨2024, 2, 15⟩ ["not-a-date"] none none none =
      computeMonthGrid 2024 2 ⟨2024, 2, 15⟩ [] none none none :=
  (computeMonthGrid_junk_string_tolerance 2024 2 (by decide) ⟨2024, 2, 15⟩ [] none none
    none "not-a-date").2.1 (by decide)

theorem urgency_classification_total_witness :
    urgencyTextAndColor (-3) =
      ("Vence en " ++ toString (-3 : Int) ++ " días hábiles", "#059669") :=
  urgency_classification_total.2.2 (-3) (by decide) (by decide)

end TareasFederal
